import Mathlib

/-!
Shallow embedding of the password-generation and entropy-selection pipeline
of `password_generator.py` and `password_generate_async.py`.

Python strings are modelled as `List Char`, Python floats as `ℝ`
(`math.log2 x` becomes `Real.logb 2 x`).  The cryptographically secure
random source (`secrets.choice`) is modelled as an explicit oracle
`rand : ℕ → Fin CHARSET.length` giving the index drawn at each step.
The external `keepassxc-cli` subprocess is modelled by the `OracleRun`
type (its exit status and captured stdout lines), and Python's `float`
parsing by an explicit parameter `pf : List Char → Option ℝ` (`none`
models an uncaught `ValueError`).
-/

namespace password_generator

/-- Embedding of Python `string.ascii_letters`. -/
def ascii_letters : List Char :=
  ("abcdefghijklmnopqrstuvwxyzABCDEFGHIJKLMNOPQRSTUVWXYZ").toList

/-- Embedding of Python `string.digits`. -/
def digits : List Char := ("0123456789").toList

/-- Embedding of Python `string.punctuation` (32 symbols). -/
def punctuation : List Char :=
  ("!\"#$%&\x27()*+,-./:;<=>?@[\\]^_\x60\x7b|\x7d~").toList

/-- `CHARSET = string.ascii_letters + string.digits + string.punctuation`. -/
def CHARSET : List Char := ascii_letters ++ digits ++ punctuation

/-- Embedding of `calculate_entropy_shannon`: iterate over the distinct
characters of the password (the keys of `collections.Counter(password)`),
subtracting `p * log2 p` for each, where `p = count / len(password)`.
On the empty password the loop body never runs and the function returns
its initial accumulator `0` (in particular `len(password)` is never
evaluated, so no division error can occur). -/
noncomputable def calculate_entropy_shannon (password : List Char) : ℝ :=
  (password.dedup.map (fun c =>
    -(((password.count c : ℝ) / (password.length : ℝ)) *
      Real.logb 2 ((password.count c : ℝ) / (password.length : ℝ))))).sum

/-- Embedding of `calculate_entropy_nist`:
`log2(len(CHARSET) ** len(password))`. -/
noncomputable def calculate_entropy_nist (password : List Char) : ℝ :=
  Real.logb 2 ((CHARSET.length : ℝ) ^ password.length)

/-- Embedding of `generate_password`: join `length` draws of
`secrets.choice(CHARSET)`.  The draw oracle `rand` supplies the index
chosen at each position.  The CLI parses `--length` as a Python `int`,
so the argument is `ℤ`; Python's `range(length)` is empty for
`length ≤ 0`, which is `Int.toNat`.  The source performs no length
validation and cannot raise here. -/
def generate_password (rand : ℕ → Fin CHARSET.length) (length : ℤ) : List Char :=
  (List.range length.toNat).map (fun i => CHARSET.get (rand i))

/-- Embedding of `generate_sample_passwords`: a list comprehension
calling `generate_password` once per sample.  `rand j` is the draw
oracle consumed by the `j`-th generator call.  The source performs no
count validation (`range(num_samples)` is empty for `num_samples ≤ 0`). -/
def generate_sample_passwords (rand : ℕ → ℕ → Fin CHARSET.length)
    (password_length : ℤ) (num_samples : ℤ) : List (List Char) :=
  (List.range num_samples.toNat).map (fun j => generate_password (rand j) password_length)

/-- Embedding of `calculate_and_display_entropy`: folds over the batch
with `max_entropy = max(max_entropy, entropy_bits)` starting from `0`,
and returns the final `max_entropy` (the reported max statistic, which
`main` then uses as the filtering threshold).  The min and mean are
computed only for logging and are not returned. -/
noncomputable def calculate_and_display_entropy (passwords : List (List Char)) : ℝ :=
  passwords.foldl (fun max_entropy password =>
    max max_entropy (calculate_entropy_shannon password)) 0

/-- Embedding of the eligibility loop of `main` (and of the async file's
`generate_eligible_passwords`): keep `(password, entropy)` whenever
`entropy >= max_entropy`. -/
noncomputable def generate_eligible_passwords (password_list : List (List Char))
    (max_entropy : ℝ) : List (List Char × ℝ) :=
  password_list.filterMap (fun password =>
    if max_entropy ≤ calculate_entropy_shannon password then
      some (password, calculate_entropy_shannon password)
    else none)

/-- Embedding of the duplicate-exclusion loop of `main`: keep an eligible
password when `password_counts[password] == 1` in the originating batch
(`password_counts = collections.Counter(password_list)`). -/
def non_duplicated_passwords (password_list : List (List Char))
    (eligible : List (List Char × ℝ)) : List (List Char) :=
  eligible.filterMap (fun pe =>
    if password_list.count pe.1 = 1 then some pe.1 else none)

/-- The set (list) from which `main`'s Shannon branch finally draws with
`secrets.choice`: eligible passwords, filtered to those occurring exactly
once in the batch, with the threshold being the fold-max of the batch. -/
noncomputable def shannon_selection_pool (password_list : List (List Char)) : List (List Char) :=
  non_duplicated_passwords password_list
    (generate_eligible_passwords password_list (calculate_and_display_entropy password_list))

/-- Embedding of `total_duplicates = len(eligible_passwords) -
len(non_duplicated_passwords)` in `main`'s Shannon branch. -/
noncomputable def total_duplicates (password_list : List (List Char)) : ℕ :=
  (generate_eligible_passwords password_list (calculate_and_display_entropy password_list)).length
    - (shannon_selection_pool password_list).length

/-- Keys of `collections.Counter(password_list)` in Python's guaranteed
insertion (first-occurrence) order. -/
def counter_keys (l : List (List Char)) : List (List Char) :=
  l.foldl (fun acc x => if x ∈ acc then acc else acc ++ [x]) []

/-- One insertion step of a stable descending sort by occurrence count,
matching Python's stable `sorted(password_counts,
key=lambda x: password_counts[x], reverse=True)`: the new element is
placed after all existing elements of greater-or-equal count. -/
def insert_by_count (password_list : List (List Char)) (x : List Char) :
    List (List Char) → List (List Char)
  | [] => [x]
  | y :: ys =>
      if password_list.count y < password_list.count x then x :: y :: ys
      else y :: insert_by_count password_list x ys

/-- Embedding of `sorted_passwords_by_count`: the Counter keys sorted by
count, descending and stable. -/
def sorted_passwords_by_count (password_list : List (List Char)) : List (List Char) :=
  (counter_keys password_list).foldl (fun acc k => insert_by_count password_list k acc) []

/-- Embedding of `most_common_password = sorted_passwords_by_count[0]`
(`none` when the batch is empty and the indexing would raise). -/
def most_common_password (password_list : List (List Char)) : Option (List Char) :=
  (sorted_passwords_by_count password_list).head?

/-- Embedding of `duplicates_of_most_common =
password_counts[most_common_password]`. -/
def duplicates_of_most_common (password_list : List (List Char)) : ℕ :=
  match most_common_password password_list with
  | some p => password_list.count p
  | none => 0

/-- Outcome of one `keepassxc-cli` subprocess invocation: `success` holds
the captured stdout split into lines; `error` models
`subprocess.CalledProcessError` (nonzero exit, with captured output). -/
inductive OracleRun where
  | success (lines : List (List Char)) : OracleRun
  | error (output : List (List Char)) : OracleRun

/-- The marker token searched for by `if "Entropy" in line`. -/
def ENTROPY_MARKER : List Char := ("Entropy").toList

/-- Embedding of Python `line.split()`: split on whitespace, dropping
empty parts. -/
def split_whitespace (line : List Char) : List (List Char) :=
  (line.splitOnP (fun c => c.isWhitespace)).filter (fun part => !part.isEmpty)

/-- Embedding of the line-scanning loop of `calculate_entropy_keepassxc`:
on the first line containing the marker and having at least 4
whitespace-separated parts, return `float(parts[3])` (`pf` models
`float`; its `none` is an uncaught `ValueError`, i.e. a crash, modelled
as the overall `none`).  If no line matches, the loop falls through,
logs an error, and returns the sentinel `0.0`. -/
noncomputable def estimate_loop (pf : List Char → Option ℝ) :
    List (List Char) → Option ℝ
  | [] => some 0
  | line :: rest =>
      if ENTROPY_MARKER <:+: line then
        if 4 ≤ (split_whitespace line).length then
          pf ((split_whitespace line).getD 3 [])
        else estimate_loop pf rest
      else estimate_loop pf rest

/-- Embedding of `calculate_entropy_keepassxc`: on a successful
subprocess run, scan the output lines; on `CalledProcessError`, log and
return the sentinel `0.0`.  The overall value `none` models the one
uncaught exception (a `ValueError` from `float`); every handled failure
path yields the numeric sentinel `some 0`. -/
noncomputable def calculate_entropy_keepassxc (pf : List Char → Option ℝ) :
    OracleRun → Option ℝ
  | OracleRun.success lines => estimate_loop pf lines
  | OracleRun.error _ => some 0

/-- Embedding of the statistics of `main`'s keepassxc branch:
`entropy_values = [calculate_entropy_keepassxc(p) for p in samples]`,
then `(min(entropy_values), max(entropy_values),
sum(entropy_values)/len(entropy_values))`.  `none` models a crash (a
`ValueError` in some call, or `min`/`max`/division on an empty list).
Failed calls contribute their sentinel `0.0` to all three statistics. -/
noncomputable def keepassxc_stats (pf : List Char → Option ℝ)
    (runs : List OracleRun) : Option (ℝ × ℝ × ℝ) :=
  let values := runs.map (calculate_entropy_keepassxc pf)
  if values.any (fun v => v.isNone) then none
  else
    match values.reduceOption with
    | [] => none
    | v :: vs => some (vs.foldl min v, vs.foldl max v,
        (v :: vs).sum / ((v :: vs).length : ℝ))

/-- Embedding of the acceptance test inside the keepassxc generate-and-test
loop: `min_accepted_entropy <= entropy <= entropy_requirement and
password not in non_duplicated_passwords`. -/
def keepassxc_band_accepts (min_accepted_entropy entropy_requirement entropy : ℝ)
    (password : List Char) (non_duplicated : List (List Char)) : Prop :=
  min_accepted_entropy ≤ entropy ∧ entropy ≤ entropy_requirement ∧
    password ∉ non_duplicated

end password_generator

namespace password_generate_async

/-- The async file's own identical `CHARSET` constant. -/
def CHARSET : List Char :=
  ("abcdefghijklmnopqrstuvwxyzABCDEFGHIJKLMNOPQRSTUVWXYZ").toList ++
    ("0123456789").toList ++
    ("!\"#$%&\x27()*+,-./:;<=>?@[\\]^_\x60\x7b|\x7d~").toList

/-- Embedding of the async file's `calculate_entropy_shannon` (an `async
def` whose body is textually identical to the synchronous one and never
awaits, hence a pure function). -/
noncomputable def calculate_entropy_shannon (password : List Char) : ℝ :=
  (password.dedup.map (fun c =>
    -(((password.count c : ℝ) / (password.length : ℝ)) *
      Real.logb 2 ((password.count c : ℝ) / (password.length : ℝ))))).sum

/-- Embedding of the async file's `calculate_entropy_nist`. -/
noncomputable def calculate_entropy_nist (password : List Char) : ℝ :=
  Real.logb 2 ((CHARSET.length : ℝ) ^ password.length)

end password_generate_async

namespace password_generator

/-- Candidate "aB3!xY7#" of the end-to-end Shannon scenario (occurs twice). -/
def w1 : List Char := ("aB3!xY7#").toList

/-- Candidate "Qw2@Lp9$" of the end-to-end Shannon scenario. -/
def w3 : List Char := ("Qw2@Lp9$").toList

/-- Candidate "Zr5^Mn1&" of the end-to-end Shannon scenario. -/
def w4 : List Char := ("Zr5^Mn1&").toList

/-- Candidate "Tv8*Wx4(" of the end-to-end Shannon scenario. -/
def w5 : List Char := ("Tv8*Wx4(").toList

/-- The fixed deterministic batch of the end-to-end Shannon scenario
(length 8, sample count 5, with "aB3!xY7#" drawn twice). -/
def shannon_fix_batch : List (List Char) := [w1, w1, w3, w4, w5]

/-- A concrete draw oracle (always chooses index 0), used to instantiate
theorems about the generator at concrete inputs. -/
def rand0 : ℕ → Fin CHARSET.length := fun _ => ⟨0, by decide⟩

/-- A concrete float-parsing oracle for tests: parses the token "10.0"
as `10`, rejects everything else. -/
noncomputable def pfW : List Char → Option ℝ :=
  fun s => if s = ("10.0").toList then some 10 else none

/-- A stdout line containing the marker and four parts, whose fourth
part parses as `10`. -/
def okLine : List Char := ("a Entropy x 10.0").toList

/-- A successful oracle invocation reporting entropy `10`. -/
def okRun : OracleRun := OracleRun.success [okLine]

/-- An oracle invocation that raised `subprocess.CalledProcessError`. -/
def failRun : OracleRun := OracleRun.error [("boom").toList]

end password_generator

namespace password_generator

lemma charset_length : CHARSET.length = 94 := by decide

lemma shannon_nonneg (p : List Char) : 0 ≤ calculate_entropy_shannon p := by
  unfold calculate_entropy_shannon
  apply List.sum_nonneg
  intro x hx
  obtain ⟨c, hc, rfl⟩ := List.mem_map.mp hx
  have hcp : c ∈ p := List.mem_dedup.mp hc
  have hlen : 0 < p.length := List.length_pos.mpr (List.ne_nil_of_mem hcp)
  have hlenR : (0 : ℝ) < (p.length : ℝ) := by exact_mod_cast hlen
  have hcount : 0 < p.count c := List.count_pos_iff.mpr hcp
  have hq0 : 0 < (p.count c : ℝ) / (p.length : ℝ) :=
    div_pos (by exact_mod_cast hcount) hlenR
  have hq1 : (p.count c : ℝ) / (p.length : ℝ) ≤ 1 := by
    rw [div_le_one hlenR]
    exact_mod_cast List.count_le_length c p
  have hlog : Real.logb 2 ((p.count c : ℝ) / (p.length : ℝ)) ≤ 0 :=
    Real.logb_nonpos (by norm_num) hq0.le hq1
  nlinarith

lemma shannon_of_nodup (p : List Char) (h : p.Nodup) :
    calculate_entropy_shannon p = Real.logb 2 (p.length : ℝ) := by
  rcases eq_or_ne p [] with rfl | hne
  · simp [calculate_entropy_shannon]
  · have hlen : 0 < p.length := List.length_pos.mpr hne
    have hlenR : (0 : ℝ) < (p.length : ℝ) := by exact_mod_cast hlen
    unfold calculate_entropy_shannon
    rw [List.dedup_eq_self.mpr h]
    have hmap : p.map (fun c =>
        -(((p.count c : ℝ) / (p.length : ℝ)) *
          Real.logb 2 ((p.count c : ℝ) / (p.length : ℝ)))) =
        p.map (fun _ => ((p.length : ℝ))⁻¹ * Real.logb 2 (p.length : ℝ)) := by
      apply List.map_congr_left
      intro c hc
      rw [List.count_eq_one_of_mem h hc]
      rw [Nat.cast_one, one_div, Real.logb_inv]
      ring
    rw [hmap, List.map_const', List.sum_replicate, nsmul_eq_mul]
    field_simp

lemma logb_two_eight : Real.logb 2 (8 : ℝ) = 3 := by
  have h : (8 : ℝ) = 2 ^ (3 : ℕ) := by norm_num
  rw [h, Real.logb_pow, Real.logb_self_eq_one (by norm_num)]
  norm_num

end password_generator

namespace password_generator

lemma le_foldl_max (l : List ℝ) (a : ℝ) : a ≤ l.foldl max a := by
  induction l generalizing a with
  | nil => simp
  | cons x xs ih =>
      calc a ≤ max a x := le_max_left a x
        _ ≤ xs.foldl max (max a x) := ih (max a x)
        _ = (x :: xs).foldl max a := rfl

lemma mem_le_foldl_max (l : List ℝ) (x : ℝ) (hx : x ∈ l) :
    ∀ a : ℝ, x ≤ l.foldl max a := by
  induction l with
  | nil => cases hx
  | cons y ys ih =>
      intro a
      rcases List.mem_cons.mp hx with rfl | hmem
      · exact le_trans (le_max_right a x) (le_foldl_max ys (max a x))
      · exact ih hmem (max a y)

lemma foldl_max_init_or_mem (l : List ℝ) (a : ℝ) :
    l.foldl max a = a ∨ l.foldl max a ∈ l := by
  induction l generalizing a with
  | nil => left; rfl
  | cons x xs ih =>
      rcases ih (max a x) with h | h
      · rcases max_choice a x with hax | hax
        · left
          show xs.foldl max (max a x) = a
          rw [h, hax]
        · right
          show xs.foldl max (max a x) ∈ x :: xs
          rw [h, hax]
          exact List.mem_cons_self x xs
      · right
        exact List.mem_cons_of_mem x h

lemma calc_display_eq_foldl_map (passwords : List (List Char)) :
    calculate_and_display_entropy passwords =
      (passwords.map calculate_entropy_shannon).foldl max 0 := by
  unfold calculate_and_display_entropy
  rw [List.foldl_map]

lemma threshold_upper (passwords : List (List Char)) (pw : List Char)
    (hpw : pw ∈ passwords) :
    calculate_entropy_shannon pw ≤ calculate_and_display_entropy passwords := by
  rw [calc_display_eq_foldl_map]
  exact mem_le_foldl_max _ _ (List.mem_map_of_mem calculate_entropy_shannon hpw) 0

lemma threshold_attained (passwords : List (List Char)) (h : passwords ≠ []) :
    ∃ pw ∈ passwords,
      calculate_entropy_shannon pw = calculate_and_display_entropy passwords := by
  rcases foldl_max_init_or_mem (passwords.map calculate_entropy_shannon) 0 with h0 | hmem
  · obtain ⟨pw, hpw⟩ := List.exists_mem_of_ne_nil passwords h
    have ht0 : calculate_and_display_entropy passwords = 0 := by
      rw [calc_display_eq_foldl_map]
      exact h0
    refine ⟨pw, hpw, le_antisymm (threshold_upper passwords pw hpw) ?_⟩
    rw [ht0]
    exact shannon_nonneg pw
  · obtain ⟨pw, hpw, heq⟩ := List.mem_map.mp hmem
    refine ⟨pw, hpw, ?_⟩
    rw [calc_display_eq_foldl_map]
    exact heq

lemma mem_selection_pool (password_list : List (List Char)) (pw : List Char)
    (hpw : pw ∈ shannon_selection_pool password_list) :
    calculate_and_display_entropy password_list ≤ calculate_entropy_shannon pw ∧
      password_list.count pw = 1 := by
  unfold shannon_selection_pool non_duplicated_passwords at hpw
  rw [List.mem_filterMap] at hpw
  obtain ⟨pe, hpe, hcond⟩ := hpw
  have hcount : password_list.count pe.1 = 1 ∧ pe.1 = pw := by
    by_cases hc : password_list.count pe.1 = 1
    · rw [if_pos hc] at hcond
      exact ⟨hc, Option.some.inj hcond⟩
    · rw [if_neg hc] at hcond
      cases hcond
  unfold generate_eligible_passwords at hpe
  rw [List.mem_filterMap] at hpe
  obtain ⟨password, _, hpcond⟩ := hpe
  by_cases hle : calculate_and_display_entropy password_list ≤
      calculate_entropy_shannon password
  · rw [if_pos hle] at hpcond
    have hfst : password = pe.1 := by
      have := Option.some.inj hpcond
      rw [← this]
    rw [← hcount.2, ← hfst]
    exact ⟨hle, by rw [hfst]; exact hcount.1⟩
  · rw [if_neg hle] at hpcond
    cases hpcond

end password_generator

namespace password_generator

lemma shannon_of_eight_distinct (w : List Char) (hnd : w.Nodup)
    (hlen : w.length = 8) : calculate_entropy_shannon w = 3 := by
  rw [shannon_of_nodup w hnd, hlen]
  have h8 : ((8 : ℕ) : ℝ) = (8 : ℝ) := by norm_num
  rw [h8]
  exact logb_two_eight

lemma shannon_w1 : calculate_entropy_shannon w1 = 3 :=
  shannon_of_eight_distinct w1 (by decide) (by decide)

lemma shannon_w3 : calculate_entropy_shannon w3 = 3 :=
  shannon_of_eight_distinct w3 (by decide) (by decide)

lemma shannon_w4 : calculate_entropy_shannon w4 = 3 :=
  shannon_of_eight_distinct w4 (by decide) (by decide)

lemma shannon_w5 : calculate_entropy_shannon w5 = 3 :=
  shannon_of_eight_distinct w5 (by decide) (by decide)

lemma threshold_fix : calculate_and_display_entropy shannon_fix_batch = 3 := by
  unfold calculate_and_display_entropy shannon_fix_batch
  simp only [List.foldl_cons, List.foldl_nil, shannon_w1, shannon_w3,
    shannon_w4, shannon_w5]
  norm_num

lemma eligible_fix : generate_eligible_passwords shannon_fix_batch 3 =
    [(w1, 3), (w1, 3), (w3, 3), (w4, 3), (w5, 3)] := by
  unfold generate_eligible_passwords shannon_fix_batch
  simp only [List.filterMap_cons, List.filterMap_nil, shannon_w1, shannon_w3,
    shannon_w4, shannon_w5, le_refl, if_true]

lemma pool_fix : shannon_selection_pool shannon_fix_batch = [w3, w4, w5] := by
  unfold shannon_selection_pool
  rw [threshold_fix, eligible_fix]
  unfold non_duplicated_passwords
  have h1 : shannon_fix_batch.count w1 = 2 := by decide
  have h3 : shannon_fix_batch.count w3 = 1 := by decide
  have h4 : shannon_fix_batch.count w4 = 1 := by decide
  have h5 : shannon_fix_batch.count w5 = 1 := by decide
  simp [h1, h3, h4, h5]

lemma total_duplicates_fix : total_duplicates shannon_fix_batch = 2 := by
  unfold total_duplicates
  rw [threshold_fix, eligible_fix, pool_fix]
  rfl

lemma most_common_fix : most_common_password shannon_fix_batch = some w1 := by
  rfl

lemma duplicates_most_common_fix :
    duplicates_of_most_common shannon_fix_batch = 2 := by
  rfl

end password_generator

namespace password_generator

lemma keepassxc_ok_value : calculate_entropy_keepassxc pfW okRun = some 10 := by
  show estimate_loop pfW [okLine] = some 10
  rw [estimate_loop]
  rw [if_pos (by decide : ENTROPY_MARKER <:+: okLine)]
  rw [if_pos (by decide : 4 ≤ (split_whitespace okLine).length)]
  have hpart : (split_whitespace okLine).getD 3 [] = ("10.0").toList := by decide
  rw [hpart]
  unfold pfW
  rw [if_pos rfl]

lemma keepassxc_fail_value : calculate_entropy_keepassxc pfW failRun = some 0 := rfl

lemma keepassxc_stats_fix :
    keepassxc_stats pfW [okRun, failRun] = some (0, 10, 5) := by
  unfold keepassxc_stats
  simp only [List.map_cons, List.map_nil, keepassxc_ok_value, keepassxc_fail_value]
  norm_num [List.reduceOption, List.filterMap_cons]

end password_generator

open password_generator

/-- C1: Shannon selector correctness — for every non-empty batch, the
threshold returned by `calculate_and_display_entropy` (the reported max
statistic) is exactly the maximum Shannon score over the batch (it is an
upper bound and is attained), and every password the selector can pick
(every member of the non-duplicated pool fed to `secrets.choice`) has
Shannon score ≥ that threshold and occurs exactly once in the
originating batch. -/
theorem C1_shannon_selector (password_list : List (List Char))
    (h : password_list ≠ []) :
    (∀ pw ∈ password_list,
        calculate_entropy_shannon pw ≤ calculate_and_display_entropy password_list) ∧
    (∃ pw ∈ password_list,
        calculate_entropy_shannon pw = calculate_and_display_entropy password_list) ∧
    (∀ pw ∈ shannon_selection_pool password_list,
        calculate_and_display_entropy password_list ≤ calculate_entropy_shannon pw ∧
          password_list.count pw = 1) :=
  ⟨fun pw hpw => threshold_upper password_list pw hpw,
   threshold_attained password_list h,
   fun pw hpw => mem_selection_pool password_list pw hpw⟩

/-- C1 witness: the property instantiated at the concrete one-element
batch containing the single-character password "a". -/
theorem C1_shannon_selector_witness :
    (([(("a").toList)] : List (List Char)) ≠ []) ∧
    ((∀ pw ∈ ([(("a").toList)] : List (List Char)),
        calculate_entropy_shannon pw ≤
          calculate_and_display_entropy [(("a").toList)]) ∧
     (∃ pw ∈ ([(("a").toList)] : List (List Char)),
        calculate_entropy_shannon pw =
          calculate_and_display_entropy [(("a").toList)]) ∧
     (∀ pw ∈ shannon_selection_pool [(("a").toList)],
        calculate_and_display_entropy [(("a").toList)] ≤
            calculate_entropy_shannon pw ∧
          ([(("a").toList)] : List (List Char)).count pw = 1)) :=
  ⟨by decide, C1_shannon_selector [(("a").toList)] (by decide)⟩

/-- C4: with the threshold set to the value returned by
`calculate_and_display_entropy` (the observed max), the eligible list of
`main`'s Shannon branch is never empty for a non-empty batch, so the
"No passwords meeting the entropy requirement" branch is unreachable on
non-empty batches. -/
theorem C4_threshold_always_met (password_list : List (List Char))
    (h : password_list ≠ []) :
    generate_eligible_passwords password_list
      (calculate_and_display_entropy password_list) ≠ [] := by
  obtain ⟨pw, hpw, heq⟩ := threshold_attained password_list h
  have hmem : (pw, calculate_entropy_shannon pw) ∈
      generate_eligible_passwords password_list
        (calculate_and_display_entropy password_list) := by
    unfold generate_eligible_passwords
    rw [List.mem_filterMap]
    exact ⟨pw, hpw, by rw [if_pos heq.ge]⟩
  exact List.ne_nil_of_mem hmem

/-- C4 witness: the property instantiated at the concrete one-element
batch containing the single-character password "b". -/
theorem C4_threshold_always_met_witness :
    (([(("b").toList)] : List (List Char)) ≠ []) ∧
    generate_eligible_passwords [(("b").toList)]
      (calculate_and_display_entropy [(("b").toList)]) ≠ [] :=
  ⟨by decide, C4_threshold_always_met [(("b").toList)] (by decide)⟩

/-- C5: for every requested length ≥ 1 and every draw oracle, the
generated candidate has exactly `length` symbols, every symbol belongs
to `CHARSET`, and `CHARSET` has exactly 94 symbols. -/
theorem C5_generator_output (rand : ℕ → Fin CHARSET.length) (length : ℤ)
    (h : 1 ≤ length) :
    ((generate_password rand length).length : ℤ) = length ∧
    (∀ c ∈ generate_password rand length, c ∈ CHARSET) ∧
    CHARSET.length = 94 := by
  refine ⟨?_, ?_, charset_length⟩
  · unfold generate_password
    rw [List.length_map, List.length_range]
    exact Int.toNat_of_nonneg (by linarith)
  · intro c hc
    unfold generate_password at hc
    rw [List.mem_map] at hc
    obtain ⟨i, _, rfl⟩ := hc
    exact List.get_mem _ _ _

/-- C5 witness: the generator invariant instantiated at length 3 with
the concrete draw oracle `rand0`. -/
theorem C5_generator_output_witness :
    (1 ≤ (3 : ℤ)) ∧
    (((generate_password rand0 3).length : ℤ) = 3 ∧
     (∀ c ∈ generate_password rand0 3, c ∈ CHARSET) ∧
     CHARSET.length = 94) :=
  ⟨by norm_num, C5_generator_output rand0 3 (by norm_num)⟩

/-- C6: for every password of length ≥ 1, the keyspace (NIST) score is
`length * log2 94` exactly (the embedding is over ℝ, so no
floating-point tolerance is needed), and any other password of the same
length receives the same score. -/
theorem C6_keyspace_formula (password : List Char) (h : 1 ≤ password.length) :
    calculate_entropy_nist password =
      (password.length : ℝ) * Real.logb 2 94 ∧
    (∀ other : List Char, password.length = other.length →
      calculate_entropy_nist password = calculate_entropy_nist other) := by
  constructor
  · unfold calculate_entropy_nist
    rw [charset_length, Real.logb_pow]
    norm_num
  · intro other ho
    unfold calculate_entropy_nist
    rw [ho]

/-- C6 witness: the keyspace formula instantiated at the concrete
two-character password "ab". -/
theorem C6_keyspace_formula_witness :
    (1 ≤ (("ab").toList).length) ∧
    (calculate_entropy_nist (("ab").toList) =
      (((("ab").toList).length : ℕ) : ℝ) * Real.logb 2 94 ∧
     (∀ other : List Char, (("ab").toList).length = other.length →
      calculate_entropy_nist (("ab").toList) = calculate_entropy_nist other)) :=
  ⟨by decide, C6_keyspace_formula (("ab").toList) (by decide)⟩

/-- C7 counterexample: the claim says `generate` fails with
`InvalidLengthError` for length ≤ 0 rather than producing any string,
but the source performs no validation (no such error type exists in the
code): at the concrete length −1 it simply returns the empty string. -/
theorem C7_counterexample : generate_password rand0 (-1) = [] := rfl

/-- C7 amended: for every length ≤ 0 the generator raises no error and
returns the empty string (Python `range(length)` is empty). -/
theorem C7_nonpositive_length_returns_empty (rand : ℕ → Fin CHARSET.length)
    (length : ℤ) (h : length ≤ 0) : generate_password rand length = [] := by
  unfold generate_password
  rw [Int.toNat_of_nonpos h]
  rfl

/-- C7 witness: the amended behaviour instantiated at length −2 with the
concrete draw oracle `rand0`. -/
theorem C7_nonpositive_length_returns_empty_witness :
    ((-2 : ℤ) ≤ 0) ∧ generate_password rand0 (-2) = [] :=
  ⟨by norm_num, C7_nonpositive_length_returns_empty rand0 (-2) (by norm_num)⟩

/-- C8 counterexample: the claim says `sample` fails with
`InvalidCountError` for count < 1, but the source performs no validation
(no such error type exists in the code): at the concrete count 0 it
simply returns the empty batch. -/
theorem C8_counterexample : generate_sample_passwords (fun _ => rand0) 8 0 = [] := rfl

/-- C8 amended: for every count, the sampler returns a batch of exactly
`count.toNat` candidates (so exactly `count` for count ≥ 1 and the empty
batch, with no error, for count < 1), whose j-th entry is exactly the
j-th generator call — nothing is deduplicated or scored. -/
theorem C8_sampler_contract (rand : ℕ → ℕ → Fin CHARSET.length)
    (password_length num_samples : ℤ) :
    (generate_sample_passwords rand password_length num_samples).length =
      num_samples.toNat ∧
    ∀ j : Fin (generate_sample_passwords rand password_length num_samples).length,
      (generate_sample_passwords rand password_length num_samples).get j =
        generate_password (rand j.val) password_length := by
  constructor
  · unfold generate_sample_passwords
    rw [List.length_map, List.length_range]
  · intro j
    simp only [List.get_eq_getElem, generate_sample_passwords,
      List.getElem_map, List.getElem_range]

/-- C2: the external-estimator failure handling the claim requires is
absent from the code (the spec itself flags this as a latent source
bug).  At concrete failing inputs: a `CalledProcessError` run yields the
numeric sentinel `0.0` (indistinguishable from a real score, not a
reported failure); that sentinel enters the min/max/mean statistics
(min drops to 0); and in the degenerate all-failed case
(requirement = 0, cushion = 3) a candidate whose own score is the
failure sentinel 0 passes the selection-eligibility band test. -/
theorem C2_failure_sentinel_code_bug :
    calculate_entropy_keepassxc pfW failRun = some 0 ∧
    keepassxc_stats pfW [okRun, failRun] = some (0, 10, 5) ∧
    keepassxc_band_accepts ((0 : ℝ) - 3) 0 0 (("x").toList) [] :=
  ⟨keepassxc_fail_value, keepassxc_stats_fix,
   by refine ⟨by norm_num, le_refl 0, List.not_mem_nil _⟩⟩

/-- C3 counterexample: on the fixed batch, neither duplicate figure the
code reports equals 1 — `total_duplicates` is 2 (both occurrences of
"aB3!xY7#" are eligible and both are excluded) and the most-common
password "aB3!xY7#" is reported with occurrence count 2. -/
theorem C3_counterexample :
    (total_duplicates shannon_fix_batch = 2 ∧
      total_duplicates shannon_fix_batch ≠ 1) ∧
    (duplicates_of_most_common shannon_fix_batch = 2 ∧
      duplicates_of_most_common shannon_fix_batch ≠ 1) :=
  ⟨⟨total_duplicates_fix, by rw [total_duplicates_fix]; norm_num⟩,
   ⟨duplicates_most_common_fix, by rw [duplicates_most_common_fix]; norm_num⟩⟩

/-- C3 amended: on the fixed batch ["aB3!xY7#","aB3!xY7#","Qw2@Lp9$",
"Zr5^Mn1&","Tv8*Wx4("] the threshold equals 3 = log2 8, the maximum
single-candidate Shannon score among the five (every candidate scores at
most 3 and w1 attains it); the reported duplicate figures are
`total_duplicates` = 2 and most-common password "aB3!xY7#" generated 2
times; and the selection pool is exactly the three non-recurring
candidates, so "aB3!xY7#" is never selected. -/
theorem C3_shannon_scenario :
    calculate_and_display_entropy shannon_fix_batch = 3 ∧
    calculate_entropy_shannon w1 = 3 ∧
    (∀ pw ∈ shannon_fix_batch, calculate_entropy_shannon pw ≤ 3) ∧
    total_duplicates shannon_fix_batch = 2 ∧
    most_common_password shannon_fix_batch = some w1 ∧
    duplicates_of_most_common shannon_fix_batch = 2 ∧
    shannon_selection_pool shannon_fix_batch = [w3, w4, w5] ∧
    w1 ∉ shannon_selection_pool shannon_fix_batch := by
  refine ⟨threshold_fix, shannon_w1, ?_, total_duplicates_fix,
    most_common_fix, duplicates_most_common_fix, pool_fix, ?_⟩
  · intro pw hpw
    have h := threshold_upper shannon_fix_batch pw hpw
    rw [threshold_fix] at h
    exact h
  · rw [pool_fix]
    decide

/-- C9: the async file's Shannon and NIST estimators agree with the
synchronous file's estimators on every input (the two files embed
textually identical pure functions). -/
theorem C9_sync_async_estimators (password : List Char) :
    password_generate_async.calculate_entropy_shannon password =
      password_generator.calculate_entropy_shannon password ∧
    password_generate_async.calculate_entropy_nist password =
      password_generator.calculate_entropy_nist password :=
  ⟨rfl, rfl⟩

/-- C10: both files' Shannon estimators return 0 on the empty string;
the loop body never executes, so no error (in particular no division by
`len(password) = 0`) can occur — the open choice is resolved as
"return 0". -/
theorem C10_shannon_empty :
    password_generator.calculate_entropy_shannon [] = 0 ∧
    password_generate_async.calculate_entropy_shannon [] = 0 :=
  ⟨rfl, rfl⟩
